/-
Verification of the metrics-computation core of the Tennis-Stats repository
(`src/analysis.py`), shallowly embedded in Lean 4.

Modelling conventions:
* Python floats are modelled as exact rationals (`ℚ`); the raw per-match
  counters are natural numbers (`ℕ`) cast into `ℚ` where the source converts
  them with `float(...)`.  `ℚ` has a single zero, which matches the source's
  truthiness test `if denominator` treating `0.0` and `-0.0` alike.
* A pandas DataFrame of match rows is modelled as a `List` of record
  structures; per-column `.sum()` / `.mean()` / boolean-mask `.sum()` become
  folds over that list.
* `pd.to_datetime` is modelled on the `YYYY-MM-DD` date strings the source
  consumes (digits split by dashes, month and day range-checked against the
  Gregorian calendar); an unparseable string raises, modelled by `Except`.
* `DataFrame.sort_values("date")` is modelled by an insertion sort ascending
  by date.  pandas' default sort kind is quicksort, whose tie order is
  unspecified; only order-agnostic facts about the sort are used below.
-/
import Mathlib

/-- Calendar date as parsed from a `YYYY-MM-DD` string (no time component). -/
structure Date where
  year : Nat
  month : Nat
  day : Nat
deriving DecidableEq, Repr

/-- Numeric key that orders valid dates chronologically
(lexicographic on year, month, day since `month ≤ 12` and `day ≤ 31`). -/
def Date.key (d : Date) : Nat :=
  d.year * 10000 + d.month * 100 + d.day

/-- Chronological order on dates, as pandas compares datetime values. -/
def Date.le (a b : Date) : Prop := a.key ≤ b.key

instance : DecidableRel Date.le := fun a b => by
  unfold Date.le; infer_instance

/-- Gregorian leap-year rule, used by `pd.to_datetime` to validate days. -/
def isLeapYear (y : Nat) : Bool :=
  (y % 4 == 0 && y % 100 != 0) || (y % 400 == 0)

/-- Number of days of month `m` in year `y` (months counted from 1). -/
def daysInMonth (y m : Nat) : Nat :=
  if m == 2 then (if isLeapYear y then 29 else 28)
  else if m == 4 || m == 6 || m == 9 || m == 11 then 30
  else 31

/-- Value of a nonempty all-digit character string, `none` otherwise. -/
def digitsVal : List Char → Option Nat
  | [] => none
  | [c] => if c.isDigit then some (c.toNat - '0'.toNat) else none
  | c :: cs =>
    if c.isDigit then
      match digitsVal cs with
      | some v => some ((c.toNat - '0'.toNat) * 10 ^ cs.length + v)
      | none => none
    else none

/-- Split a character list at every dash, keeping empty groups. -/
def splitDash : List Char → List (List Char)
  | [] => [[]]
  | c :: cs =>
    if c = '-' then [] :: splitDash cs
    else
      match splitDash cs with
      | [] => [[c]]
      | g :: gs => (c :: g) :: gs

/-- Parse of `pd.to_datetime` (as `load_matches` at src/analysis.py:36 and
`find_match_by_date` at src/analysis.py:89 apply it) modelled on the
source's `YYYY-MM-DD` date-string format: three dash-separated digit groups
forming a valid Gregorian calendar date. -/
def parseDate (s : String) : Option Date :=
  match splitDash s.data with
  | [ys, ms, ds] =>
    match digitsVal ys, digitsVal ms, digitsVal ds with
    | some y, some m, some d =>
      if 1 ≤ m ∧ m ≤ 12 ∧ 1 ≤ d ∧ d ≤ daysInMonth y m then
        some ⟨y, m, d⟩
      else none
    | _, _, _ => none
  | _ => none

/-- Error raised when a date string cannot be parsed
(pandas raises on `errors="raise"`; the payload records the bad string). -/
inductive ParseError where
  | unparseable : String → ParseError
deriving DecidableEq, Repr

/-- One raw CSV row, before date parsing and result normalization
(the input columns of src/analysis.py:32). -/
structure RawRecord where
  date : String
  opponent : String
  surface : String
  result : String
  score : String
  aces : Nat
  double_faults : Nat
  first_serve_in : Nat
  first_serve_total : Nat
  first_serve_points_won : Nat
  first_serve_points_total : Nat
  second_serve_points_won : Nat
  second_serve_points_total : Nat
  break_points_saved : Nat
  break_points_faced : Nat
deriving DecidableEq, Repr

/-- One loaded match row: date parsed, result normalized, counters intact. -/
structure MatchRecord where
  date : Date
  opponent : String
  surface : String
  result : String
  score : String
  aces : Nat
  double_faults : Nat
  first_serve_in : Nat
  first_serve_total : Nat
  first_serve_points_won : Nat
  first_serve_points_total : Nat
  second_serve_points_won : Nat
  second_serve_points_total : Nat
  break_points_saved : Nat
  break_points_faced : Nat
deriving DecidableEq, Repr

/-- ASCII whitespace, the characters Python's `str.strip` removes from the
result codes that occur here. -/
def isSpaceChar (c : Char) : Bool :=
  c == ' ' || c == '\t' || c == '\n' || c == '\r'

/-- Remove leading and trailing whitespace (Python `str.strip`). -/
def stripChars (cs : List Char) : List Char :=
  ((cs.dropWhile isSpaceChar).reverse.dropWhile isSpaceChar).reverse

/-- `df["result"].str.upper().str.strip()` (src/analysis.py:39):
uppercase every character, then trim surrounding whitespace. -/
def normalizeResult (s : String) : String :=
  ⟨stripChars (s.data.map Char.toUpper)⟩

/-- `_safe_div` (src/analysis.py:28-29): `numerator / denominator` when the
denominator is truthy (nonzero), `0.0` otherwise. -/
def safe_div (numerator denominator : ℚ) : ℚ :=
  if denominator ≠ 0 then numerator / denominator else 0

/-- The four per-match rates returned by `compute_match_metrics`
(the dict keys of src/analysis.py:50-55). -/
structure MatchMetrics where
  first_serve_pct : ℚ
  first_serve_pts_won_pct : ℚ
  second_serve_pts_won_pct : ℚ
  break_points_saved_pct : ℚ
deriving DecidableEq, Repr

/-- `compute_match_metrics` (src/analysis.py:45-55): four safe divisions of
one row's raw counters. -/
def compute_match_metrics (row : MatchRecord) : MatchMetrics where
  first_serve_pct := safe_div row.first_serve_in row.first_serve_total
  first_serve_pts_won_pct :=
    safe_div row.first_serve_points_won row.first_serve_points_total
  second_serve_pts_won_pct :=
    safe_div row.second_serve_points_won row.second_serve_points_total
  break_points_saved_pct :=
    safe_div row.break_points_saved row.break_points_faced

/-- `Summary` dataclass (src/analysis.py:14-25).
(`matches` is a Lean keyword, hence the guillemets.) -/
structure Summary where
  «matches» : Nat
  wins : Nat
  losses : Nat
  win_rate : ℚ
  avg_aces : ℚ
  avg_double_faults : ℚ
  first_serve_pct : ℚ
  first_serve_pts_won_pct : ℚ
  second_serve_pts_won_pct : ℚ
  break_points_saved_pct : ℚ
deriving DecidableEq, Repr

/-- Column sum: `df[col].sum()` for a counter column, as a rational. -/
def colSum (df : List MatchRecord) (f : MatchRecord → Nat) : ℚ :=
  ((df.map f).sum : Nat)

/-- `compute_summary` (src/analysis.py:58-85): counts, win rate, per-match
averages (guarded by `if matches`), and season rates as safe divisions of
summed numerators by summed denominators. -/
def compute_summary (df : List MatchRecord) : Summary :=
  let «matches» := df.length
  let wins := df.countP (fun r => r.result == "W")
  let losses := df.countP (fun r => r.result == "L")
  let win_rate := safe_div wins «matches»
  let avg_aces : ℚ :=
    if «matches» ≠ 0 then colSum df (·.aces) / «matches» else 0
  let avg_double_faults : ℚ :=
    if «matches» ≠ 0 then colSum df (·.double_faults) / «matches» else 0
  { «matches» := «matches»
    wins := wins
    losses := losses
    win_rate := win_rate
    avg_aces := avg_aces
    avg_double_faults := avg_double_faults
    first_serve_pct :=
      safe_div (colSum df (·.first_serve_in)) (colSum df (·.first_serve_total))
    first_serve_pts_won_pct :=
      safe_div (colSum df (·.first_serve_points_won))
        (colSum df (·.first_serve_points_total))
    second_serve_pts_won_pct :=
      safe_div (colSum df (·.second_serve_points_won))
        (colSum df (·.second_serve_points_total))
    break_points_saved_pct :=
      safe_div (colSum df (·.break_points_saved))
        (colSum df (·.break_points_faced)) }

/-- Parse one raw row into a `MatchRecord` (the per-row effect of
src/analysis.py:36 and :39): fails on an unparseable date, normalizes the
result code, copies every other column. -/
def parseRow (r : RawRecord) : Except ParseError MatchRecord :=
  match parseDate r.date with
  | none => .error (.unparseable r.date)
  | some d =>
    .ok { date := d
          opponent := r.opponent
          surface := r.surface
          result := normalizeResult r.result
          score := r.score
          aces := r.aces
          double_faults := r.double_faults
          first_serve_in := r.first_serve_in
          first_serve_total := r.first_serve_total
          first_serve_points_won := r.first_serve_points_won
          first_serve_points_total := r.first_serve_points_total
          second_serve_points_won := r.second_serve_points_won
          second_serve_points_total := r.second_serve_points_total
          break_points_saved := r.break_points_saved
          break_points_faced := r.break_points_faced }

/-- Parse every row in order, failing at the first bad date
(`pd.to_datetime(df["date"], errors="raise")`). -/
def parseRows : List RawRecord → Except ParseError (List MatchRecord)
  | [] => .ok []
  | r :: rs =>
    match parseRow r with
    | .error e => .error e
    | .ok m =>
      match parseRows rs with
      | .error e => .error e
      | .ok ms => .ok (m :: ms)

/-- `load_matches` (src/analysis.py:32-42): parse dates, normalize results,
sort ascending by date.  The source sorts with pandas
`df.sort_values("date")`; the default sort kind is quicksort, so the order
among equal dates is unspecified — insertion sort stands in here, and the
theorems below rely only on facts that hold for every ascending sort. -/
def load_matches (rows : List RawRecord) : Except ParseError (List MatchRecord) :=
  (parseRows rows).map
    (List.insertionSort (fun a b => Date.le a.date b.date))

/-- `find_match_by_date` (src/analysis.py:88-93): parse the query date
(raising on failure), filter rows with an equal date, return `None` on an
empty filter, else the first hit (`hit.iloc[0]`). -/
def find_match_by_date (df : List MatchRecord) (date_str : String) :
    Except ParseError (Option MatchRecord) :=
  match parseDate date_str with
  | none => .error (.unparseable date_str)
  | some d =>
    let hit := df.filter (fun r => r.date == d)
    .ok hit.head?

/-! ### Concrete rows used in examples and witnesses
(the two rows of `src/tests/test_analysis.py`) -/

/-- The "W" row of the repository's unit tests. -/
def rowW : MatchRecord where
  date := ⟨2025, 10, 8⟩
  opponent := "A"
  surface := "Hard"
  result := "W"
  score := "6-4 6-4"
  aces := 5
  double_faults := 1
  first_serve_in := 40
  first_serve_total := 50
  first_serve_points_won := 30
  first_serve_points_total := 40
  second_serve_points_won := 10
  second_serve_points_total := 20
  break_points_saved := 6
  break_points_faced := 8

/-- The "L" row of the repository's unit tests. -/
def rowL : MatchRecord where
  date := ⟨2025, 10, 9⟩
  opponent := "B"
  surface := "Clay"
  result := "L"
  score := "4-6 4-6"
  aces := 1
  double_faults := 3
  first_serve_in := 30
  first_serve_total := 60
  first_serve_points_won := 18
  first_serve_points_total := 30
  second_serve_points_won := 12
  second_serve_points_total := 30
  break_points_saved := 2
  break_points_faced := 6

/-! ### Claim theorems -/

/-- **C2.** `safe_div` is total (a Lean function), returns `n / d` whenever
the denominator is nonzero, and returns `0` when it is zero — `ℚ` has a
single zero, matching the source's truthiness test that treats `-0.0` as
zero — for every numerator, including `0`. -/
theorem safe_div_spec (n d : ℚ) :
    (d ≠ 0 → safe_div n d = n / d) ∧ safe_div n 0 = 0 := by
  refine ⟨fun h => ?_, ?_⟩ <;> simp [safe_div, *]

/-- Witness for C2: `safe_div 6 3 = 2` and `safe_div 5 0 = 0`. -/
theorem safe_div_spec_witness :
    ((3 : ℚ) ≠ 0 ∧ safe_div 6 3 = 2) ∧ safe_div 5 0 = 0 :=
  ⟨⟨by norm_num, by rw [(safe_div_spec 6 3).1 (by norm_num)]; norm_num⟩,
    (safe_div_spec 5 0).2⟩

/-- **C3.** `compute_match_metrics` never fails (it is a total function) and
returns exactly the four safe divisions of the row's counters; on the test
row (`first_serve_in=40/50, pts_won=30/40, second=10/20, bp=6/8`) it returns
`{0.8, 0.75, 0.5, 0.75}`. -/
theorem compute_match_metrics_spec :
    (∀ row : MatchRecord,
      compute_match_metrics row =
        { first_serve_pct := safe_div row.first_serve_in row.first_serve_total
          first_serve_pts_won_pct :=
            safe_div row.first_serve_points_won row.first_serve_points_total
          second_serve_pts_won_pct :=
            safe_div row.second_serve_points_won row.second_serve_points_total
          break_points_saved_pct :=
            safe_div row.break_points_saved row.break_points_faced }) ∧
    compute_match_metrics rowW =
      { first_serve_pct := 0.8
        first_serve_pts_won_pct := 0.75
        second_serve_pts_won_pct := 0.5
        break_points_saved_pct := 0.75 } := by
  refine ⟨fun row => rfl, ?_⟩
  simp only [compute_match_metrics, rowW, safe_div]
  norm_num

/-- **C4.** `compute_summary` on the empty history returns all-zero counts,
rates and averages (the `if matches` guard short-circuits the means). -/
theorem compute_summary_empty :
    compute_summary [] =
      { «matches» := 0, wins := 0, losses := 0, win_rate := 0, avg_aces := 0
        avg_double_faults := 0, first_serve_pct := 0
        first_serve_pts_won_pct := 0, second_serve_pts_won_pct := 0
        break_points_saved_pct := 0 } := by
  simp [compute_summary, safe_div, colSum]

/-- **C1.** Every season rate field of `compute_summary` is `safe_div` of the
summed numerator column by the summed denominator column; on the two test
rows (denominators 50 vs 60) the season first-serve rate `70/110` is not the
arithmetic mean of the two per-match rates `(0.8 + 0.5)/2`. -/
theorem compute_summary_season_rates :
    (∀ df : List MatchRecord,
      (compute_summary df).first_serve_pct =
        safe_div (colSum df (·.first_serve_in))
          (colSum df (·.first_serve_total)) ∧
      (compute_summary df).first_serve_pts_won_pct =
        safe_div (colSum df (·.first_serve_points_won))
          (colSum df (·.first_serve_points_total)) ∧
      (compute_summary df).second_serve_pts_won_pct =
        safe_div (colSum df (·.second_serve_points_won))
          (colSum df (·.second_serve_points_total)) ∧
      (compute_summary df).break_points_saved_pct =
        safe_div (colSum df (·.break_points_saved))
          (colSum df (·.break_points_faced))) ∧
    (compute_summary [rowW, rowL]).first_serve_pct ≠
      ((compute_match_metrics rowW).first_serve_pct +
        (compute_match_metrics rowL).first_serve_pct) / 2 := by
  refine ⟨fun df => ⟨rfl, rfl, rfl, rfl⟩, ?_⟩
  norm_num [compute_summary, compute_match_metrics, safe_div, colSum,
    rowW, rowL]

/-- A safe division of naturals with `a ≤ b` and `0 < b` lands in `[0, 1]`. -/
theorem safe_div_nat_bounds (a b : Nat) (hab : a ≤ b) (hb : 0 < b) :
    0 ≤ safe_div (a : ℚ) (b : ℚ) ∧ safe_div (a : ℚ) (b : ℚ) ≤ 1 := by
  have hbq : (b : ℚ) ≠ 0 := Nat.cast_ne_zero.mpr hb.ne'
  rw [safe_div, if_pos hbq]
  refine ⟨by positivity, ?_⟩
  rw [div_le_one (by exact_mod_cast hb)]
  exact_mod_cast hab

/-- **C5.** Each field of `compute_match_metrics` lies in `[0, 1]` whenever
its numerator counter is at most its denominator counter and the denominator
is positive, and equals `0` when the denominator is zero. -/
theorem compute_match_metrics_bounds (row : MatchRecord) :
    ((row.first_serve_in ≤ row.first_serve_total → 0 < row.first_serve_total →
        0 ≤ (compute_match_metrics row).first_serve_pct ∧
          (compute_match_metrics row).first_serve_pct ≤ 1) ∧
      (row.first_serve_total = 0 →
        (compute_match_metrics row).first_serve_pct = 0)) ∧
    ((row.first_serve_points_won ≤ row.first_serve_points_total →
        0 < row.first_serve_points_total →
        0 ≤ (compute_match_metrics row).first_serve_pts_won_pct ∧
          (compute_match_metrics row).first_serve_pts_won_pct ≤ 1) ∧
      (row.first_serve_points_total = 0 →
        (compute_match_metrics row).first_serve_pts_won_pct = 0)) ∧
    ((row.second_serve_points_won ≤ row.second_serve_points_total →
        0 < row.second_serve_points_total →
        0 ≤ (compute_match_metrics row).second_serve_pts_won_pct ∧
          (compute_match_metrics row).second_serve_pts_won_pct ≤ 1) ∧
      (row.second_serve_points_total = 0 →
        (compute_match_metrics row).second_serve_pts_won_pct = 0)) ∧
    ((row.break_points_saved ≤ row.break_points_faced →
        0 < row.break_points_faced →
        0 ≤ (compute_match_metrics row).break_points_saved_pct ∧
          (compute_match_metrics row).break_points_saved_pct ≤ 1) ∧
      (row.break_points_faced = 0 →
        (compute_match_metrics row).break_points_saved_pct = 0)) := by
  refine ⟨⟨fun h1 h2 => safe_div_nat_bounds _ _ h1 h2, fun h0 => ?_⟩,
    ⟨fun h1 h2 => safe_div_nat_bounds _ _ h1 h2, fun h0 => ?_⟩,
    ⟨fun h1 h2 => safe_div_nat_bounds _ _ h1 h2, fun h0 => ?_⟩,
    ⟨fun h1 h2 => safe_div_nat_bounds _ _ h1 h2, fun h0 => ?_⟩⟩ <;>
  simp [compute_match_metrics, h0, safe_div]

/-- Witness for C5: on the test row, `40 ≤ 50`, `0 < 50`, and the
first-serve rate is within `[0, 1]`. -/
theorem compute_match_metrics_bounds_witness :
    rowW.first_serve_in ≤ rowW.first_serve_total ∧
      0 < rowW.first_serve_total ∧
      (0 ≤ (compute_match_metrics rowW).first_serve_pct ∧
        (compute_match_metrics rowW).first_serve_pct ≤ 1) :=
  ⟨by decide, by decide,
    (compute_match_metrics_bounds rowW).1.1 (by decide) (by decide)⟩

/-- **C9.** `compute_summary` is invariant under permutation of the history:
it depends only on the multiset of records. -/
theorem compute_summary_perm (df₁ df₂ : List MatchRecord)
    (h : df₁.Perm df₂) : compute_summary df₁ = compute_summary df₂ := by
  have hlen := h.length_eq
  have hW := h.countP_eq (fun r => r.result == "W")
  have hL := h.countP_eq (fun r => r.result == "L")
  have hsum : ∀ f : MatchRecord → Nat, colSum df₁ f = colSum df₂ f := by
    intro f
    unfold colSum
    rw [(h.map f).sum_eq]
  simp [compute_summary, hlen, hW, hL, hsum]

/-- Witness for C9: swapping the two test rows leaves the summary unchanged. -/
theorem compute_summary_perm_witness :
    compute_summary [rowW, rowL] = compute_summary [rowL, rowW] :=
  compute_summary_perm _ _ (List.Perm.swap rowL rowW [])

/-- Wins and losses use disjoint result codes, so together they never
exceed the number of rows. -/
theorem countP_WL_le (l : List MatchRecord) :
    l.countP (fun r => r.result == "W") +
      l.countP (fun r => r.result == "L") ≤ l.length := by
  induction l with
  | nil => simp
  | cons a t ih =>
    simp only [List.countP_cons, List.length_cons]
    by_cases h1 : a.result = "W"
    · have h2 : a.result ≠ "L" := by rw [h1]; decide
      simp only [h1, h2]
      simp
      omega
    · by_cases h2 : a.result = "L" <;> simp [h1, h2] <;> omega

/-- When every row's result is "W" or "L", the two counts partition the
rows. -/
theorem countP_WL_eq (l : List MatchRecord) :
    (∀ r ∈ l, r.result = "W" ∨ r.result = "L") →
      l.countP (fun r => r.result == "W") +
        l.countP (fun r => r.result == "L") = l.length := by
  induction l with
  | nil => intro _; simp
  | cons a t ih =>
    intro hall
    have ha := hall a (List.mem_cons_self a t)
    have ht := ih fun r hr => hall r (List.mem_cons_of_mem a hr)
    simp only [List.countP_cons, List.length_cons]
    rcases ha with h1 | h1
    · have h2 : a.result ≠ "L" := by rw [h1]; decide
      simp only [h1, h2]
      simp
      omega
    · have h2 : a.result ≠ "W" := by rw [h1]; decide
      simp only [h1, h2]
      simp
      omega

/-- **C10.** In every summary, `wins` counts exactly the rows with result
"W", `losses` exactly those with result "L", `wins + losses ≤ matches`, with
equality when every row's result is "W" or "L". -/
theorem compute_summary_wins_losses (df : List MatchRecord) :
    ((compute_summary df).wins =
        (df.filter (fun r => r.result == "W")).length ∧
      (compute_summary df).losses =
        (df.filter (fun r => r.result == "L")).length) ∧
    (compute_summary df).wins + (compute_summary df).losses ≤
      (compute_summary df).«matches» ∧
    ((∀ r ∈ df, r.result = "W" ∨ r.result = "L") →
      (compute_summary df).wins + (compute_summary df).losses =
        (compute_summary df).«matches») := by
  have hwins : (compute_summary df).wins =
      df.countP (fun r => r.result == "W") := rfl
  have hlosses : (compute_summary df).losses =
      df.countP (fun r => r.result == "L") := rfl
  have hmatches : (compute_summary df).«matches» = df.length := rfl
  refine ⟨⟨?_, ?_⟩, ?_, fun hall => ?_⟩
  · rw [hwins, List.countP_eq_length_filter]
  · rw [hlosses, List.countP_eq_length_filter]
  · rw [hwins, hlosses, hmatches]; exact countP_WL_le df
  · rw [hwins, hlosses, hmatches]; exact countP_WL_eq df hall

/-- Witness for C10: on the two test rows every result is "W" or "L" and
`wins + losses = matches`. -/
theorem compute_summary_wins_losses_witness :
    (∀ r ∈ [rowW, rowL], r.result = "W" ∨ r.result = "L") ∧
      (compute_summary [rowW, rowL]).wins +
          (compute_summary [rowW, rowL]).losses =
        (compute_summary [rowW, rowL]).«matches» :=
  ⟨by decide, (compute_summary_wins_losses [rowW, rowL]).2.2 (by decide)⟩

/-- `hit.iloc[0]`-on-a-filter equals the first element satisfying the
predicate. -/
theorem filter_head_eq_find {α : Type} (p : α → Bool) (l : List α) :
    (l.filter p).head? = l.find? p := by
  induction l with
  | nil => rfl
  | cons a t ih =>
    by_cases h : p a = true
    · simp [List.filter_cons, List.find?_cons, h]
    · simp only [List.filter_cons, List.find?_cons, h]
      simp only [h, ite_false, Bool.false_eq_true]
      exact ih

/-- `find?` returns the element at the first index satisfying the
predicate. -/
theorem find_eq_of_first {α : Type} (p : α → Bool) :
    ∀ (l : List α) (i : Nat) (h : i < l.length),
      p (l.get ⟨i, h⟩) = true →
      (∀ j, (hj : j < i) → p (l.get ⟨j, hj.trans h⟩) = false) →
      l.find? p = some (l.get ⟨i, h⟩)
  | a :: t, 0, _, hp, _ =>
    List.find?_cons_of_pos t hp
  | a :: t, i + 1, h, hp, hmin => by
    have ha : p a = false := hmin 0 (Nat.succ_pos i)
    rw [List.find?_cons_of_neg t (by simp [ha])]
    exact find_eq_of_first p t i (Nat.lt_of_succ_lt_succ h) hp
      (fun j hj => hmin (j + 1) (Nat.succ_lt_succ hj))

/-- **C7.** `find_match_by_date` fails with a parse error on an unparseable
date string; on a parseable one it returns the record at the first stored
position whose date equals the query, and `none` when no stored date
matches. -/
theorem find_match_by_date_spec (df : List MatchRecord) (s : String) :
    (parseDate s = none →
      find_match_by_date df s = .error (.unparseable s)) ∧
    (∀ d, parseDate s = some d →
      ((∀ r ∈ df, r.date ≠ d) → find_match_by_date df s = .ok none) ∧
      (∀ i, (h : i < df.length) → (df.get ⟨i, h⟩).date = d →
        (∀ j, (hj : j < i) → (df.get ⟨j, hj.trans h⟩).date ≠ d) →
        find_match_by_date df s = .ok (some (df.get ⟨i, h⟩)))) := by
  constructor
  · intro hn
    unfold find_match_by_date
    rw [hn]
  · intro d hd
    constructor
    · intro habsent
      unfold find_match_by_date
      rw [hd]
      simp only [Except.ok.injEq]
      rw [filter_head_eq_find]
      rw [List.find?_eq_none]
      intro r hr
      simpa using habsent r hr
    · intro i h hdate hfirst
      unfold find_match_by_date
      rw [hd]
      simp only [Except.ok.injEq]
      rw [filter_head_eq_find]
      refine find_eq_of_first _ df i h (by simpa using hdate) ?_
      intro j hj
      simpa using hfirst j hj

/-- Witness for C7: on `[rowW, rowL]`, querying `2025-10-08` finds `rowW`
(stored first) and querying the absent `2024-01-01` yields `none`. -/
theorem find_match_by_date_witness :
    find_match_by_date [rowW, rowL] "2025-10-08" = .ok (some rowW) ∧
      find_match_by_date [rowW, rowL] "2024-01-01" = .ok none :=
  ⟨((find_match_by_date_spec [rowW, rowL] "2025-10-08").2 ⟨2025, 10, 8⟩
      (by decide)).2 0 (by decide) (by decide)
      (fun j hj => absurd hj (Nat.not_lt_zero j)),
    ((find_match_by_date_spec [rowW, rowL] "2024-01-01").2 ⟨2024, 1, 1⟩
      (by decide)).1 (by decide)⟩

/-- A raw row whose result code `" x "` is outside {W, L} even after
normalization. -/
def rawRowX : RawRecord where
  date := "2024-05-01"
  opponent := "X"
  surface := "Grass"
  result := " x "
  score := "6-0 6-0"
  aces := 2
  double_faults := 0
  first_serve_in := 10
  first_serve_total := 12
  first_serve_points_won := 8
  first_serve_points_total := 10
  second_serve_points_won := 1
  second_serve_points_total := 2
  break_points_saved := 0
  break_points_faced := 0

/-- A raw row whose result `" w "` normalizes to `"W"`. -/
def rawRowW : RawRecord where
  date := "2025-10-08"
  opponent := "A"
  surface := "Hard"
  result := " w "
  score := "6-4 6-4"
  aces := 5
  double_faults := 1
  first_serve_in := 40
  first_serve_total := 50
  first_serve_points_won := 30
  first_serve_points_total := 40
  second_serve_points_won := 10
  second_serve_points_total := 20
  break_points_saved := 6
  break_points_faced := 8

/-- Counterexample for C8: loading a row whose normalized result is `"X"`
(not `"W"` or `"L"`) succeeds — the source performs no result validation —
and the stored result is the normalized `"X"`. -/
theorem load_matches_accepts_bad_result :
    load_matches [rawRowX] =
      .ok [{ date := ⟨2024, 5, 1⟩
             opponent := "X"
             surface := "Grass"
             result := "X"
             score := "6-0 6-0"
             aces := 2
             double_faults := 0
             first_serve_in := 10
             first_serve_total := 12
             first_serve_points_won := 8
             first_serve_points_total := 10
             second_serve_points_won := 1
             second_serve_points_total := 2
             break_points_saved := 0
             break_points_faced := 0 }] ∧
    "X" ≠ "W" ∧ "X" ≠ "L" := by
  refine ⟨?_, by decide, by decide⟩
  rfl

/-- Every member of an `.ok` result of `parseRows` is the successful parse
of some input row. -/
theorem parseRows_mem (rows : List RawRecord) (ms : List MatchRecord)
    (h : parseRows rows = .ok ms) :
    ∀ m ∈ ms, ∃ s ∈ rows, parseRow s = .ok m := by
  induction rows generalizing ms with
  | nil =>
    simp only [parseRows, Except.ok.injEq] at h
    subst h
    intro m hm
    cases hm
  | cons r rs ih =>
    cases hp : parseRow r with
    | error e => simp only [parseRows, hp] at h; cases h
    | ok m0 =>
      cases hq : parseRows rs with
      | error e => simp only [parseRows, hp, hq] at h; cases h
      | ok ms0 =>
        simp only [parseRows, hp, hq, Except.ok.injEq] at h
        subst h
        intro m hm
        rcases List.mem_cons.mp hm with rfl | hm'
        · exact ⟨r, List.mem_cons_self r rs, hp⟩
        · obtain ⟨s, hs, hps⟩ := ih ms0 hq m hm'
          exact ⟨s, List.mem_cons_of_mem r hs, hps⟩

/-- A successfully parsed row carries the normalized result of its raw
row. -/
theorem parseRow_result (s : RawRecord) (m : MatchRecord)
    (h : parseRow s = .ok m) : m.result = normalizeResult s.result := by
  unfold parseRow at h
  cases hd : parseDate s.date with
  | none => rw [hd] at h; cases h
  | some d =>
    rw [hd] at h
    cases h
    rfl

/-- **C8 (amended).** `load_matches` normalizes every result code to
uppercase with surrounding whitespace trimmed; it accepts any normalized
value and never fails on results outside {W, L} (the source performs no
result validation). -/
theorem load_matches_result_normalized (rows : List RawRecord)
    (out : List MatchRecord) (h : load_matches rows = .ok out) :
    ∀ r ∈ out, ∃ s ∈ rows, r.result = normalizeResult s.result := by
  unfold load_matches at h
  cases hp : parseRows rows with
  | error e => rw [hp] at h; cases h
  | ok ms =>
    rw [hp] at h
    simp only [Except.map, Except.ok.injEq] at h
    subst h
    intro r hr
    have hr' : r ∈ ms := (List.mem_insertionSort _).mp hr
    obtain ⟨s, hs, hps⟩ := parseRows_mem rows ms hp r hr'
    exact ⟨s, hs, parseRow_result s r hps⟩

/-- Witness for C8: loading the raw row with result `" w "` succeeds and its
stored result is the normalized `"W"`. -/
theorem load_matches_result_normalized_witness :
    load_matches [rawRowW] = .ok [rowW] ∧
      ∀ r ∈ [rowW], ∃ s ∈ [rawRowW], r.result = normalizeResult s.result :=
  ⟨by rfl, load_matches_result_normalized [rawRowW] [rowW] (by rfl)⟩

/-! ### Ordering facts about the loader

The source sorts with `df.sort_values("date")` (src/analysis.py:42) using
pandas' default quicksort kind, which pandas documents as not stable; the
relative order of rows with equal dates is therefore decided by library
internals outside this repository.  The facts below hold for every correct
ascending sort and hence for the source. -/

instance : IsTotal MatchRecord (fun a b => Date.le a.date b.date) :=
  ⟨fun a b => Nat.le_total a.date.key b.date.key⟩

instance : IsTrans MatchRecord (fun a b => Date.le a.date b.date) :=
  ⟨fun _ _ _ => Nat.le_trans⟩

/-- A successfully loaded history is sorted ascending by date. -/
theorem load_matches_sorted (rows : List RawRecord)
    (out : List MatchRecord) (h : load_matches rows = .ok out) :
    out.Sorted (fun a b => Date.le a.date b.date) := by
  unfold load_matches at h
  cases hp : parseRows rows with
  | error e => rw [hp] at h; cases h
  | ok ms =>
    rw [hp] at h
    simp only [Except.map, Except.ok.injEq] at h
    subst h
    exact List.sorted_insertionSort _ ms

/-- The loaded history is a permutation of the parsed input rows. -/
theorem load_matches_perm (rows : List RawRecord)
    (ms out : List MatchRecord) (hp : parseRows rows = .ok ms)
    (h : load_matches rows = .ok out) : out.Perm ms := by
  unfold load_matches at h
  rw [hp] at h
  simp only [Except.map, Except.ok.injEq] at h
  subst h
  exact List.perm_insertionSort _ ms
